import Mathlib

/-!
Shallow embedding of the sql_crud user-account service
(src/main.py and src/models.py) for checking the specification claims.

Modelling conventions:
* The relational storage engine is an external collaborator (spec section 1);
  the `users` table is modelled as a `List User` held in id/insertion order,
  matching the SQLite rowid order that an unordered SELECT returns here, and
  the SQLAlchemy query chain (`query`/`filter`/`offset`/`limit`/`order_by`/
  `first`/`all`) is modelled by the `UserQuery` builder below with its
  documented SQL semantics.
* passlib bcrypt (`pwd_context`, main.py line 17) is an external collaborator.
  It is modelled as a deterministic injective encoding that tags a plaintext as
  hashed, with `verify` as the matching check; the varying salt is elided,
  which is sound for every claim here (none depends on two hashes of the same
  plaintext differing).
* `jwt.encode` is modelled as a record of the exact claims dictionary, the
  signing key and the algorithm tag that the source passes to it.
* Python-level failures that the claims are about are modelled explicitly:
  pydantic `BaseModel` subclasses define no `items` method, and keyword
  unpacking `f(**m, k=v)` raises `TypeError` when `k` collides with a key of
  `m` (in CPython the call `User(**user, password=...)` in fact already raises
  `TypeError` one step earlier, because a pydantic model is not a mapping;
  either way the observable outcome is a `TypeError` and nothing persisted).
-/

namespace SqlCrud

/-- A row of the `users` table (models.py lines 17-23):
`id` integer primary key, `username` and `email` unique strings,
`password` string. -/
structure User where
  id : Nat
  username : String
  email : String
  password : String
deriving Repr, DecidableEq

/-- The `users` table, rows in id/insertion order. -/
abbrev Store := List User

/-- Python-level exceptions and HTTP errors that the handlers can surface.
`httpException code detail` models `raise HTTPException(status_code, detail)`. -/
inductive PyErr where
  | typeError (msg : String)
  | attributeError (msg : String)
  | validationError (msg : String)
  | httpException (status_code : Nat) (detail : String)
deriving Repr, DecidableEq

/-- passlib bcrypt `pwd_context.hash` (main.py line 17, external collaborator):
modelled as a deterministic injective encoding marking the value as hashed. -/
def pwd_context_hash (plaintext : String) : String :=
  "$2b$12$" ++ plaintext

/-- passlib bcrypt `pwd_context.verify`: true iff the plaintext re-hashed under
the parameters embedded in the stored hash matches the stored hash. -/
def pwd_context_verify (plaintext hashed : String) : Bool :=
  pwd_context_hash plaintext == hashed

/-- Constant `SECRET_KEY` (main.py line 18). -/
def SECRET_KEY : String := "your_secret_key"

/-- Constant `ALGORITHM` (main.py line 19). -/
def ALGORITHM : String := "HS256"

/-- A JWT claim value: either a string claim (`sub`) or a timestamp claim
(`exp`); timestamps are seconds. -/
inductive JwtVal where
  | str (s : String)
  | time (t : Nat)
deriving Repr, DecidableEq

/-- A Python dict of JWT claims, as an association list in insertion order. -/
abbrev JwtDict := List (String × JwtVal)

/-- Python `dict.update({k: v})`: replaces the value when the key is present,
otherwise appends the binding. -/
def dictUpdate (d : JwtDict) (k : String) (v : JwtVal) : JwtDict :=
  if d.any (fun kv => kv.1 == k) then
    d.map (fun kv => if kv.1 == k then (k, v) else kv)
  else
    d ++ [(k, v)]

/-- The result of `jwt.encode(to_encode, SECRET_KEY, algorithm=ALGORITHM)`:
the signing library is external, so the token is modelled by exactly what the
source hands it: the claims dict, the key and the algorithm tag. -/
structure EncodedJWT where
  claims : JwtDict
  key : String
  alg : String
deriving Repr, DecidableEq

/-- Function `create_access_token(data, expires_delta=None)` (main.py lines 22-30).
`now` stands for `datetime.utcnow()` in seconds. The Python guard
`if expires_delta:` is truthiness on a `timedelta`: it is False both for
`None` and for a zero duration, so a zero `expires_delta` falls through to
the 30-minute default, exactly as `None` does. -/
def create_access_token (data : JwtDict) (now : Nat)
    (expires_delta : Option Nat) : EncodedJWT :=
  let to_encode := data
  let expire : Nat :=
    match expires_delta with
    | some d => if d ≠ 0 then now + d else now + 30 * 60
    | none => now + 30 * 60
  let to_encode := dictUpdate to_encode "exp" (JwtVal.time expire)
  { claims := to_encode, key := SECRET_KEY, alg := ALGORITHM }

/-- The pydantic request model `UserCreateUpdate` (main.py lines 41-44):
three required string fields. -/
structure UserCreateUpdate where
  username : String
  email : String
  password : String
deriving Repr, DecidableEq

/-- The declared fields of a `UserCreateUpdate` instance, as name/value pairs
in declaration order (main.py lines 41-44). -/
def userCreateUpdateFields (u : UserCreateUpdate) : List (String × String) :=
  [("username", u.username), ("email", u.email), ("password", u.password)]

/-- The field names of the pydantic response model `UserOutput`
(main.py lines 47-48): it subclasses `UserCreateUpdate`, so it inherits
`username`, `email` and `password`, and adds `id`. -/
def userOutputFieldNames : List String :=
  (userCreateUpdateFields ⟨"", "", ""⟩).map (fun kv => kv.1) ++ ["id"]

/-- pydantic validation of a JSON body against `UserCreateUpdate`: all three
fields are required (none is Optional, main.py lines 41-44), so a body
missing any of them is rejected with a validation error (HTTP 422). -/
def parseUserCreateUpdate (body : List (String × String)) :
    Except PyErr UserCreateUpdate :=
  match (body.lookup "username", body.lookup "email", body.lookup "password") with
  | (some u, some e, some p) => Except.ok ⟨u, e, p⟩
  | _ => Except.error (PyErr.validationError "field required")

/-- Python keyword-argument assembly for a call `f(**unpacked, k=v, ...)`:
when an explicit keyword collides with a key of the unpacked mapping, the
call raises `TypeError` ("got multiple values for keyword argument"). -/
def mergeKwargs (unpacked explicit : List (String × String)) :
    Except PyErr (List (String × String)) :=
  if explicit.any (fun kv => unpacked.any (fun kv2 => kv2.1 == kv.1)) then
    Except.error (PyErr.typeError "got multiple values for keyword argument")
  else
    Except.ok (unpacked ++ explicit)

/-- pydantic `BaseModel` defines no `items` method and `UserCreateUpdate`
(main.py lines 41-44) adds only the three data fields, so the attribute
access `user.items` in `update_user` raises `AttributeError`. -/
def userCreateUpdate_items (_ : UserCreateUpdate) :
    Except PyErr (List (String × String)) :=
  Except.error (PyErr.attributeError "UserCreateUpdate object has no attribute items")

deriving instance DecidableEq for Except

/-- A SQLAlchemy query over the `users` table in construction: the candidate
rows (already filtered), the accumulated OFFSET and the optional LIMIT.
Without an ORDER BY, rows stay in the table's rowid/insertion order. -/
structure UserQuery where
  rows : List User
  offsetN : Nat
  limitN : Option Nat
deriving Repr, DecidableEq

/-- Model of `db.query(User)`: all rows, no offset, no limit. -/
def sessionQuery (db : Store) : UserQuery :=
  { rows := db, offsetN := 0, limitN := none }

/-- Model of `query.filter(cond)`: keep the rows satisfying the condition. -/
def UserQuery.filterBy (q : UserQuery) (p : User → Bool) : UserQuery :=
  { q with rows := q.rows.filter p }

/-- Model of `query.offset(n)`. -/
def UserQuery.offsetQ (q : UserQuery) (n : Nat) : UserQuery :=
  { q with offsetN := n }

/-- Model of `query.limit(n)`. -/
def UserQuery.limitQ (q : UserQuery) (n : Nat) : UserQuery :=
  { q with limitN := some n }

/-- Model of `query.all()`: execute, applying OFFSET then LIMIT. -/
def UserQuery.allQ (q : UserQuery) : List User :=
  let dropped := q.rows.drop q.offsetN
  match q.limitN with
  | none => dropped
  | some n => dropped.take n

/-- Model of `query.first()`: execute with LIMIT 1 and return the row, if any. -/
def UserQuery.firstQ (q : UserQuery) : Option User :=
  (q.rows.drop q.offsetN).head?

/-- Model of `setattr(db_user, key, value)` inside the `update_user` loop
(main.py line 97): assignment to a column attribute updates that column;
any other key would create a plain object attribute, invisible to the row. -/
def setattrUser (r : User) (key value : String) : User :=
  if key == "username" then { r with username := value }
  else if key == "email" then { r with email := value }
  else if key == "password" then { r with password := value }
  else r

/-- Next primary-key value the storage engine would assign (SQLite rowid:
one more than the largest id in the table). -/
def freshId (db : Store) : Nat :=
  (db.map (fun r => r.id)).foldl Nat.max 0 + 1

/-- Handler `create_user` (main.py lines 61-68): hashes the password, then evaluates
`User(**user, password=hashed_password)`. The keyword assembly raises
`TypeError`, because `password` is both a field of the unpacked model and an
explicit keyword (and in CPython the model is not even a mapping — also
`TypeError`). The `Except.ok` branch models the unreached remainder: the row
is built from the keywords, added and committed (the unique constraints of
models.py would be checked by the engine at that commit), refreshed, and
returned. Returns the (possibly updated) store with the outcome. -/
def create_user (user : UserCreateUpdate) (db : Store) :
    Store × Except PyErr User :=
  let hashed_password := pwd_context_hash user.password
  match mergeKwargs (userCreateUpdateFields user) [("password", hashed_password)] with
  | Except.error e => (db, Except.error e)
  | Except.ok kwargs =>
      let db_user : User :=
        { id := freshId db
        , username := (kwargs.lookup "username").getD ""
        , email := (kwargs.lookup "email").getD ""
        , password := (kwargs.lookup "password").getD "" }
      (db ++ [db_user], Except.ok db_user)

/-- Handler `get_user` (main.py lines 71-76): look the id up, 404 when absent. -/
def get_user (user_id : Nat) (db : Store) : Except PyErr User :=
  match ((sessionQuery db).filterBy (fun r => r.id == user_id)).firstQ with
  | none => Except.error (PyErr.httpException 404 "NOT FOUND")
  | some db_user => Except.ok db_user

/-- Default of the `skip` query parameter (main.py line 81, `Query(0)`,
exposed under the alias `page`). -/
def skipDefault : Nat := 0

/-- Default of the `limit` query parameter (main.py line 83, `Query(10)`). -/
def limitDefault : Nat := 10

/-- Handler `get_all_users` (main.py lines 79-87):
`db.query(User).offset(skip).limit(limit).all()`. -/
def get_all_users (skip limit : Nat) (db : Store) : List User :=
  (((sessionQuery db).offsetQ skip).limitQ limit).allQ

/-- Handler `update_user` (main.py lines 90-100): look the id up, 404 when absent;
then iterate `user.items()` — which raises `AttributeError`, since a pydantic
model has no `items` method — assigning each pair with `setattr`, commit, and
return the row. Returns the (possibly updated) store with the outcome. -/
def update_user (user_id : Nat) (user : UserCreateUpdate) (db : Store) :
    Store × Except PyErr User :=
  match ((sessionQuery db).filterBy (fun r => r.id == user_id)).firstQ with
  | none => (db, Except.error (PyErr.httpException 404 "NOT FOUND"))
  | some db_user =>
      match userCreateUpdate_items user with
      | Except.error e => (db, Except.error e)
      | Except.ok items =>
          let updated := items.foldl (fun r kv => setattrUser r kv.1 kv.2) db_user
          (db.map (fun r => if r.id == user_id then updated else r),
           Except.ok updated)

/-- The PUT /users/\x7buser_id\x7d endpoint: pydantic validation of the body
against `UserCreateUpdate`, then `update_user`. -/
def update_user_endpoint (user_id : Nat) (body : List (String × String))
    (db : Store) : Store × Except PyErr User :=
  match parseUserCreateUpdate body with
  | Except.error e => (db, Except.error e)
  | Except.ok user => update_user user_id user db

/-- Handler `delete_user` (main.py lines 103-110): look the id up, 404 when absent;
otherwise remove the row and return the pre-deletion snapshot. -/
def delete_user (user_id : Nat) (db : Store) : Store × Except PyErr User :=
  match ((sessionQuery db).filterBy (fun r => r.id == user_id)).firstQ with
  | none => (db, Except.error (PyErr.httpException 404 "NOT FOUND"))
  | some db_user =>
      (db.filter (fun r => !(r.id == user_id)), Except.ok db_user)

/-- The JSON body returned by a successful login. -/
structure TokenResponse where
  access_token : EncodedJWT
  token_type : String
deriving Repr, DecidableEq

/-- Handler `login_for_access_token` (main.py lines 113-126): look the user up by
username; when absent, or when `pwd_context.verify` rejects the password, the
one shared branch raises `HTTPException(400, "Incorrect")`; otherwise issue a
token for `{"sub": username}` with an explicit 30-minute expiry. -/
def login_for_access_token (user_data : UserCreateUpdate) (now : Nat)
    (db : Store) : Except PyErr TokenResponse :=
  match ((sessionQuery db).filterBy
          (fun r => r.username == user_data.username)).firstQ with
  | none => Except.error (PyErr.httpException 400 "Incorrect")
  | some db_user =>
      if !(pwd_context_verify user_data.password db_user.password) then
        Except.error (PyErr.httpException 400 "Incorrect")
      else
        let access_token_expires := 30 * 60
        Except.ok
          { access_token :=
              create_access_token [("sub", JwtVal.str db_user.username)] now
                (some access_token_expires)
          , token_type := "bearer" }

/-- Model of `getattr(User, sort_by)` (main.py lines 144-146): the mapped columns of
`User` are exactly `id`, `username`, `email` and `password` (models.py lines
20-23); any other name raises `AttributeError`. A column is rendered as the
sort key it extracts from a row. -/
inductive ColKey where
  | intKey (n : Nat)
  | strKey (s : String)
deriving Repr, DecidableEq

/-- Column lookup on the `User` class by attribute name. -/
def getattrUserColumn (name : String) : Except PyErr (User → ColKey) :=
  if name == "id" then Except.ok (fun r => ColKey.intKey r.id)
  else if name == "username" then Except.ok (fun r => ColKey.strKey r.username)
  else if name == "email" then Except.ok (fun r => ColKey.strKey r.email)
  else if name == "password" then Except.ok (fun r => ColKey.strKey r.password)
  else Except.error (PyErr.attributeError ("type object User has no attribute " ++ name))

/-- Lexicographic order on character lists by code point: the collation the
storage engine applies to its string columns. -/
def charListLe : List Char → List Char → Bool
  | [], _ => true
  | _ :: _, [] => false
  | c :: cs, d :: ds =>
      if c.toNat < d.toNat then true
      else if d.toNat < c.toNat then false
      else charListLe cs ds

/-- Ascending comparison of sort keys (keys in one query are homogeneous;
the mixed cases are unreachable). -/
def ColKey.leB : ColKey → ColKey → Bool
  | ColKey.intKey a, ColKey.intKey b => a ≤ b
  | ColKey.strKey a, ColKey.strKey b => charListLe a.data b.data
  | _, _ => true

/-- Stable insertion into a list sorted by `le`. -/
def insertLe (le : User → User → Bool) (x : User) : List User → List User
  | [] => [x]
  | y :: ys => if le x y then x :: y :: ys else y :: insertLe le x ys

/-- ORDER BY: sort the rows by the comparison. -/
def sortRows (le : User → User → Bool) (l : List User) : List User :=
  l.foldr (insertLe le) []

/-- Python truthiness of an optional string (`if username:`):
false for `None` and for the empty string. -/
def truthyOptStr : Option String → Bool
  | none => false
  | some s => !(s == "")

/-- Handler `filter_users` (main.py lines 129-148): equality filters for the provided
`username`/`email`, then ORDER BY the column `getattr(User, sort_by)`,
descending when `order == "desc"`, and execute. No allowlist guards
`sort_by`: whatever resolves on the `User` class is passed to the storage
layer; a name that is no attribute surfaces as `AttributeError`, not as a
validation error. -/
def filter_users (username email : Option String) (sort_by order : String)
    (db : Store) : Except PyErr (List User) :=
  let query := sessionQuery db
  let query :=
    if truthyOptStr username then
      query.filterBy (fun r => r.username == username.getD "")
    else query
  let query :=
    if truthyOptStr email then
      query.filterBy (fun r => r.email == email.getD "")
    else query
  match getattrUserColumn sort_by with
  | Except.error e => Except.error e
  | Except.ok col =>
      let sorted :=
        if order == "desc" then
          sortRows (fun a b => ColKey.leB (col b) (col a)) query.rows
        else
          sortRows (fun a b => ColKey.leB (col a) (col b)) query.rows
      Except.ok (({ query with rows := sorted } : UserQuery).allQ)

/-- C1: the claim says any `sort_by` outside the allowlist of user fields
(`id`, `username`, `email`) fails with a `ValidationError` and performs no
storage query. In the code (main.py lines 143-147) there is no allowlist:
`sort_by="password"` resolves via `getattr(User, "password")`, is handed to
the storage layer as the ORDER BY column, and the query executes and returns
the users sorted by their password column — no `ValidationError` arises. -/
theorem C1_sort_by_password_reaches_storage :
    filter_users none none "password" "asc"
      [⟨1, "alice", "a@x", "zz"⟩, ⟨2, "bob", "b@x", "aa"⟩]
      = Except.ok [⟨2, "bob", "b@x", "aa"⟩, ⟨1, "alice", "a@x", "zz"⟩] := by
  decide

/-- C2: the claim says a password supplied to update is re-hashed before
storage. The assignment loop of `update_user` (main.py lines 96-97), applied
to the request model's fields, writes the supplied plaintext into the
`password` column with no hash call anywhere in `update_user`; moreover the
update itself raises `AttributeError` on `user.items()` and leaves the store
unchanged, so no successful create or update exists at all and the stored
hash survives only because the write never happens. -/
theorem C2_update_password_not_rehashed :
    (((userCreateUpdateFields ⟨"alice", "a@x", "plain"⟩).foldl
        (fun r kv => setattrUser r kv.1 kv.2)
        ⟨1, "alice", "a@x", pwd_context_hash "old"⟩).password = "plain"
      ∧ "plain" ≠ pwd_context_hash "plain")
    ∧ update_user 1 ⟨"alice", "a@x", "plain"⟩
        [⟨1, "alice", "a@x", pwd_context_hash "old"⟩]
      = ([⟨1, "alice", "a@x", pwd_context_hash "old"⟩],
         Except.error
           (PyErr.attributeError "UserCreateUpdate object has no attribute items")) := by
  exact ⟨⟨by decide, by decide⟩, by rfl⟩

/-- C3: the claim says creating a user whose username already exists fails
with a `ConflictError` and leaves the store unchanged. In the code, every
create — conflicting or not — raises `TypeError` while evaluating
`User(**user, password=hashed_password)` (main.py line 64), before any
storage interaction; no `ConflictError` path exists (uniqueness lives only in
the engine's unique constraints, models.py lines 21-22). The store is indeed
unchanged, but the failure is a `TypeError`, not a `ConflictError`. -/
theorem C3_duplicate_create_type_error_not_conflict :
    create_user ⟨"alice", "other@x", "pw"⟩
      [⟨1, "alice", "a@x", pwd_context_hash "pw"⟩]
      = ([⟨1, "alice", "a@x", pwd_context_hash "pw"⟩],
         Except.error (PyErr.typeError "got multiple values for keyword argument")) := by
  rfl

/-- C4: the claim says the output representation of a created user excludes
the password field. The response model `UserOutput` (main.py lines 47-48)
subclasses `UserCreateUpdate`, so its fields are `username`, `email`,
`password` and `id` — the password field is included, not excluded; and in
fact no create ever succeeds, since constructing the row raises `TypeError`. -/
theorem C4_user_output_contains_password :
    "password" ∈ userOutputFieldNames
    ∧ (create_user ⟨"alice", "a@x", "pw"⟩ []).2
      = Except.error (PyErr.typeError "got multiple values for keyword argument") := by
  exact ⟨by decide, by rfl⟩

/-- C5: a login whose username is absent from the store and a login whose
username exists but whose password fails verification both surface the
identical failure `HTTPException(400, "Incorrect")` (main.py lines 119-121),
so the two causes are indistinguishable to the caller. -/
theorem C5_auth_failures_indistinguishable (db : Store)
    (u1 u2 : UserCreateUpdate) (r : User) (now1 now2 : Nat)
    (h1 : ((sessionQuery db).filterBy
            (fun x => x.username == u1.username)).firstQ = none)
    (h2 : ((sessionQuery db).filterBy
            (fun x => x.username == u2.username)).firstQ = some r)
    (h3 : pwd_context_verify u2.password r.password = false) :
    login_for_access_token u1 now1 db
        = Except.error (PyErr.httpException 400 "Incorrect")
      ∧ login_for_access_token u2 now2 db
        = Except.error (PyErr.httpException 400 "Incorrect")
      ∧ login_for_access_token u1 now1 db = login_for_access_token u2 now2 db := by
  unfold login_for_access_token
  rw [h1, h2]
  simp [h3]

/-- C5 witness: a store holding only alice; the login for the absent user bob
and the login for alice with a wrong password return the identical error. -/
theorem C5_auth_failures_indistinguishable_witness :
    login_for_access_token ⟨"bob", "irrelevant", "x"⟩ 5
        [⟨1, "alice", "a@x", pwd_context_hash "right"⟩]
        = Except.error (PyErr.httpException 400 "Incorrect")
      ∧ login_for_access_token ⟨"alice", "irrelevant", "wrong"⟩ 7
        [⟨1, "alice", "a@x", pwd_context_hash "right"⟩]
        = Except.error (PyErr.httpException 400 "Incorrect")
      ∧ login_for_access_token ⟨"bob", "irrelevant", "x"⟩ 5
          [⟨1, "alice", "a@x", pwd_context_hash "right"⟩]
        = login_for_access_token ⟨"alice", "irrelevant", "wrong"⟩ 7
          [⟨1, "alice", "a@x", pwd_context_hash "right"⟩] :=
  C5_auth_failures_indistinguishable
    [⟨1, "alice", "a@x", pwd_context_hash "right"⟩]
    ⟨"bob", "irrelevant", "x"⟩ ⟨"alice", "irrelevant", "wrong"⟩
    ⟨1, "alice", "a@x", pwd_context_hash "right"⟩ 5 7
    (by decide) (by decide) (by decide)

/-- C6: the claim says update accepts any subset of the fields and an
email-only update changes just the email. In the code the request body is
validated against `UserCreateUpdate`, whose three fields are all required, so
the body with only an email is rejected before the store is touched; and even
a complete body fails on `user.items()` before any assignment. In neither
case does `getById` ever observe the new email. -/
theorem C6_email_only_update_rejected :
    update_user_endpoint 1 [("email", "new@x")]
        [⟨1, "alice", "a@x", pwd_context_hash "pw"⟩]
      = ([⟨1, "alice", "a@x", pwd_context_hash "pw"⟩],
         Except.error (PyErr.validationError "field required"))
    ∧ update_user_endpoint 1
        [("username", "alice"), ("email", "new@x"), ("password", "pw")]
        [⟨1, "alice", "a@x", pwd_context_hash "pw"⟩]
      = ([⟨1, "alice", "a@x", pwd_context_hash "pw"⟩],
         Except.error
           (PyErr.attributeError "UserCreateUpdate object has no attribute items"))
    ∧ get_user 1 [⟨1, "alice", "a@x", pwd_context_hash "pw"⟩]
      = Except.ok ⟨1, "alice", "a@x", pwd_context_hash "pw"⟩ := by
  exact ⟨by rfl, by rfl, by rfl⟩

/-- C7: `get_all_users` returns the stored rows in insertion/id order with the
first `skip` rows dropped and at most `limit` rows returned; the defaults are
skip 0 and limit 10; and on five inserted users, skip 0 with limit 2 yields
exactly the first two in insertion order. -/
theorem C7_get_all_users_paginates (db : Store) (skip limit : Nat) :
    get_all_users skip limit db = (db.drop skip).take limit
    ∧ skipDefault = 0 ∧ limitDefault = 10
    ∧ get_all_users skipDefault limitDefault db = (db.drop 0).take 10
    ∧ get_all_users 0 2
        [⟨1, "u1", "e1", "p1"⟩, ⟨2, "u2", "e2", "p2"⟩, ⟨3, "u3", "e3", "p3"⟩,
         ⟨4, "u4", "e4", "p4"⟩, ⟨5, "u5", "e5", "p5"⟩]
      = [⟨1, "u1", "e1", "p1"⟩, ⟨2, "u2", "e2", "p2"⟩] := by
  exact ⟨rfl, rfl, rfl, rfl, by decide⟩

/-- C8 counterexample: the claim promises, for every ttl, a claims set of
exactly \x7bsub: subject, exp: now + ttl\x7d. For a zero ttl the guard
`if expires_delta:` is False (a zero `timedelta` is falsy), so the code falls
back to the 30-minute default: at subject alice, now 0, ttl 0 the encoded exp
is 1800, not now + ttl = 0. -/
theorem C8_zero_ttl_counterexample :
    (create_access_token [("sub", JwtVal.str "alice")] 0 (some 0)).claims
      ≠ [("sub", JwtVal.str "alice"), ("exp", JwtVal.time (0 + 0))] := by
  decide

/-- C8 amended: for every subject and every nonzero ttl, the issued token's
claims set is exactly \x7bsub: subject, exp: now + ttl\x7d, signed with the
process-wide `SECRET_KEY` under the fixed HS256 algorithm; when the ttl is
omitted — and likewise when a zero ttl is supplied, which the code treats as
omitted — the expiry defaults to now + 30 minutes. -/
theorem C8_issue_token_claims (subject : String) (now d : Nat) (h : d ≠ 0) :
    create_access_token [("sub", JwtVal.str subject)] now (some d)
      = { claims := [("sub", JwtVal.str subject), ("exp", JwtVal.time (now + d))]
        , key := SECRET_KEY, alg := ALGORITHM }
    ∧ create_access_token [("sub", JwtVal.str subject)] now none
      = { claims := [("sub", JwtVal.str subject),
                     ("exp", JwtVal.time (now + 30 * 60))]
        , key := SECRET_KEY, alg := ALGORITHM }
    ∧ create_access_token [("sub", JwtVal.str subject)] now (some 0)
      = create_access_token [("sub", JwtVal.str subject)] now none
    ∧ SECRET_KEY = "your_secret_key" ∧ ALGORITHM = "HS256" := by
  refine ⟨?_, ?_, ?_, rfl, rfl⟩ <;> simp [create_access_token, dictUpdate, h]

/-- C8 witness: the amended theorem at subject alice, now 100 and ttl 60. -/
theorem C8_issue_token_claims_witness :
    (60 : Nat) ≠ 0
    ∧ (create_access_token [("sub", JwtVal.str "alice")] 100 (some 60)
        = { claims := [("sub", JwtVal.str "alice"), ("exp", JwtVal.time (100 + 60))]
          , key := SECRET_KEY, alg := ALGORITHM }
      ∧ create_access_token [("sub", JwtVal.str "alice")] 100 none
        = { claims := [("sub", JwtVal.str "alice"),
                       ("exp", JwtVal.time (100 + 30 * 60))]
          , key := SECRET_KEY, alg := ALGORITHM }
      ∧ create_access_token [("sub", JwtVal.str "alice")] 100 (some 0)
        = create_access_token [("sub", JwtVal.str "alice")] 100 none
      ∧ SECRET_KEY = "your_secret_key" ∧ ALGORITHM = "HS256") :=
  ⟨by decide, C8_issue_token_claims "alice" 100 60 (by decide)⟩

/-- C9: for every update call that passes the existence check, the iteration
`user.items()` raises `AttributeError` before any field assignment runs, so
the call fails and the store is returned unchanged. -/
theorem C9_update_fails_before_assignment (user_id : Nat)
    (user : UserCreateUpdate) (db : Store) (r : User)
    (h : ((sessionQuery db).filterBy (fun x => x.id == user_id)).firstQ = some r) :
    update_user user_id user db
      = (db, Except.error
          (PyErr.attributeError "UserCreateUpdate object has no attribute items")) := by
  unfold update_user
  rw [h]
  rfl

/-- C9 witness: a one-row store whose row id 1 passes the existence check;
the update errors and the store is unchanged. -/
theorem C9_update_fails_before_assignment_witness :
    ((sessionQuery [⟨1, "u", "e", "p"⟩]).filterBy
        (fun x => x.id == 1)).firstQ = some ⟨1, "u", "e", "p"⟩
    ∧ update_user 1 ⟨"a", "b", "c"⟩ [⟨1, "u", "e", "p"⟩]
      = ([⟨1, "u", "e", "p"⟩],
         Except.error
           (PyErr.attributeError "UserCreateUpdate object has no attribute items")) :=
  ⟨by decide,
   C9_update_fails_before_assignment 1 ⟨"a", "b", "c"⟩ [⟨1, "u", "e", "p"⟩]
     ⟨1, "u", "e", "p"⟩ (by decide)⟩

/-- C10: every create call raises `TypeError` while assembling the keywords of
`User(**user, password=hashed_password)` — the model's own `password` field
collides with the explicit keyword — so create never persists a row and never
returns a created user: the store comes back unchanged with the error. -/
theorem C10_create_always_type_error (user : UserCreateUpdate) (db : Store) :
    create_user user db
      = (db, Except.error
          (PyErr.typeError "got multiple values for keyword argument")) := by
  rfl

end SqlCrud
